import Mathlib

/-!
Shallow embedding of `src/app.py` (SattvaTech chatbot backend).

Python strings are modelled as Lean `String` (a structure over `List Char`);
the Python string operations used by the source (`in`, `.lower()`,
`.split('\n')`, `.split(':', 1)`, `.strip()`, negative-index slicing
`lst[-k:]`) are given explicit executable models below.

MongoDB documents produced by `store_chat` and returned by the projected
`find` query are modelled as association lists (`Doc`); a missing key on
subscript (`msg['content']`) is a `KeyError`, modelled as `Option.none`
propagating to the enclosing `try/except`.

External collaborators (the Gemini model call, the two MongoDB inserts,
the SMTP send) are modelled as oracles in `Ext`: `none`/`false` means the
call raised. Calls the source wraps in `try/except` absorb the failure;
calls it does not wrap abort the request handler with `HResult.serverError`
(Flask turns the uncaught exception into a 500 with no JSON reply).
-/

/-! ## Python string primitives -/

/-- Model of Python list/str membership check used as `sub in s`:
`listStartsWith sub l` is true when `sub` is a leading segment of `l`. -/
def listStartsWith : List Char → List Char → Bool
  | [], _ => true
  | _ :: _, [] => false
  | a :: as, b :: bs => a == b && listStartsWith as bs

/-- Model of `listContains sub l`: true when `sub` occurs contiguously in
`l` (Python substring containment; the empty list occurs in every list). -/
def listContains (sub : List Char) : List Char → Bool
  | [] => listStartsWith sub []
  | b :: bs => listStartsWith sub (b :: bs) || listContains sub bs

/-- Python `sub in s` on strings. -/
def pyIn (sub s : String) : Bool := listContains sub.data s.data

/-- Python `s.lower()` (ASCII case folding, which is all the source uses). -/
def lower (s : String) : String := String.mk (s.data.map Char.toLower)

/-- Python `s.split(c)` on a single-character separator. -/
def splitOnChar (c : Char) : List Char → List (List Char)
  | [] => [[]]
  | a :: as =>
    if a == c then [] :: splitOnChar c as
    else
      match splitOnChar c as with
      | [] => [[a]]
      | b :: bs => (a :: b) :: bs

/-- Python `message.split('\n')`. -/
def splitLines (s : String) : List String :=
  (splitOnChar '\n' s.data).map String.mk

/-- Everything after the first occurrence of `c`, if any
(the `[1]` component of Python `line.split(c, 1)`). -/
def afterCharAux (c : Char) : List Char → Option (List Char)
  | [] => none
  | a :: as => if a == c then some as else afterCharAux c as

/-- Python `line.split(':', 1)[1]`. In the source this subscript is only
reached on lines already known to contain a colon (the marker checks
guarantee one), so the missing-colon default is never exercised. -/
def afterFirstColon (line : String) : String :=
  String.mk ((afterCharAux ':' line.data).getD [])

/-- The whitespace set of Python `str.strip()` (ASCII part). -/
def pyIsSpace (c : Char) : Bool :=
  c == ' ' || c == '\t' || c == '\n' || c == '\r' ||
  c == Char.ofNat 11 || c == Char.ofNat 12

/-- Python `s.strip()`. -/
def pyStrip (s : String) : String :=
  String.mk (((s.data.dropWhile pyIsSpace).reverse.dropWhile pyIsSpace).reverse)

/-- Python negative-index tail slice `lst[-k:]` for a non-negative `k`.
For `k = 0` the slice is `lst[0:]`, i.e. the whole list; for `k ≥ 1` it is
the last `min k lst.length` elements. -/
def pyTailSlice (k : Nat) (xs : List α) : List α :=
  if k = 0 then xs else xs.drop (xs.length - k)

/-! ## Data model -/

/-- A MongoDB document as the source reads it back: dict subscripting
`d[k]` is `docGet d k`, with `none` standing for `KeyError`. -/
abbrev Doc := List (String × String)

/-- Dict lookup: first binding of the key, `none` when the key is absent. -/
def docGet (d : Doc) (k : String) : Option String :=
  (d.find? (fun p => p.1 == k)).map (fun p => p.2)

/-- One row of the `chat_logs` collection as written by `store_chat`
(the `timestamp` field is insertion order, modelled by list position). -/
structure ChatRec where
  session_id : String
  role : String
  message : String
deriving DecidableEq, Repr

/-- The `contact_info` dict produced by `extract_contact_info`:
each key is present (`some`) or absent (`none`). -/
structure ContactInfo where
  name : Option String := none
  email : Option String := none
  phone : Option String := none
deriving DecidableEq, Repr

/-- Python truthiness of the `contact_info` dict: empty iff no key was set. -/
def ContactInfo.isEmpty (c : ContactInfo) : Bool :=
  c.name.isNone && c.email.isNone && c.phone.isNone

/-- The dict passed to `store_lead` and `send_contact_email`: the extracted
fields plus the `session_id` and `interest` keys added by the handler. -/
structure ContactPayload where
  contact : ContactInfo
  session_id : String
  interest : String
deriving DecidableEq, Repr

/-- One row of the `leads` collection as written by `store_lead`. -/
structure LeadDoc where
  payload : ContactPayload
  followed_up : Bool
deriving DecidableEq, Repr

/-- The externally visible state: the two MongoDB collections in insertion
order, and the contact emails successfully delivered. -/
structure World where
  chats : List ChatRec
  leads : List LeadDoc
  emails : List ContactPayload
deriving DecidableEq, Repr

/-- Configuration surface read by the handler. -/
structure Config where
  maxChatHistory : Nat
  contactPrompt : String

/-- Fallible external collaborators. `model` returns `none` when
`model.generate_content` (or the `.text` access) raises; a `false` from
`chatInsertOk`/`leadInsertOk` means the MongoDB `insert_one` raised; a
`false` from `emailOk` means the SMTP send raised (caught in the source). -/
structure Svc where
  model : String → Option String
  chatInsertOk : ChatRec → Bool
  leadInsertOk : ContactPayload → Bool
  emailOk : ContactPayload → Bool

/-- Outcome of one request: a JSON reply, or an uncaught exception
surfacing as a 500 with no reply. -/
inductive HResult where
  | ok (response : String)
  | serverError
deriving DecidableEq, Repr

/-! ## The embedded program -/

/-- The module-level `SYSTEM_PROMPT` literal. -/
def SYSTEM_PROMPT : String :=
  "\nYou are a customer service chatbot for Sattva Tech company. Your role is to:\n1. Answer questions about the company, its services, and job vacancies\n2. Politely decline to answer questions not related to the company\n3. Ask for contact information when appropriate\n\nGuidelines:\n- Keep responses professional and friendly\n- For off-topic questions, respond with the configured OFF_TOPIC_RESPONSE\n- When appropriate, ask the configured CONTACT_PROMPT\n- Never make up information\n"

/-- The fixed fallback returned by `generate_response` on any exception. -/
def FALLBACK : String :=
  "I'm having trouble processing your request. Please try again later."

/-- The fixed acknowledgement suffix appended after a stored lead. -/
def THANK_YOU : String :=
  "\n\nThank you for your contact information! Our team will reach out to you soon."

/-- The header the context string starts from before the history loop. -/
def CONTEXT_HEADER : String := SYSTEM_PROMPT ++ "\n\nChat history:\n"

/-- The `for msg in ...` loop body of `generate_response`: appends
`f"{msg['role']}: {msg['content']}\n"` per document; a document missing
either key raises `KeyError`, modelled as `none`. -/
def contextLoop (acc : String) : List Doc → Option String
  | [] => some acc
  | d :: ds =>
    match docGet d "role", docGet d "content" with
    | some r, some c => contextLoop (acc ++ r ++ ": " ++ c ++ "\n") ds
    | _, _ => none

/-- Lines 51-54 of the source: the context string built from the tail slice
`chat_history[-MAX_CHAT_HISTORY:]`, or `none` if the loop raised. -/
def buildContext (maxHistory : Nat) (history : List Doc) : Option String :=
  contextLoop CONTEXT_HEADER (pyTailSlice maxHistory history)

/-- Model of `generate_response(prompt, chat_history)`: builds the context and calls
the model inside a catch-all `try/except` whose handler returns `FALLBACK`. -/
def generate_response (model : String → Option String) (maxHistory : Nat)
    (prompt : String) (chat_history : List Doc) : String :=
  match buildContext maxHistory chat_history with
  | none => FALLBACK
  | some context =>
    match model (context ++ "\nUser: " ++ prompt ++ "\nAssistant:") with
    | none => FALLBACK
    | some text => text

/-- Model of `store_chat` as a state update (the insert itself; whether the insert
raised is decided by the caller through `Svc.chatInsertOk`). -/
def store_chat (w : World) (session_id role message : String) : World :=
  { w with chats := w.chats ++ [⟨session_id, role, message⟩] }

/-- The projection `{"_id": 0, "role": 1, "message": 1}` applied to a
stored chat row: the loaded document has exactly the keys `role` and
`message`. -/
def recToDoc (r : ChatRec) : Doc := [("role", r.role), ("message", r.message)]

/-- The history query of the handler: all rows of the session, in
timestamp (= insertion) order, projected to `role`/`message` documents. -/
def loadHistory (chats : List ChatRec) (session_id : String) : List Doc :=
  (chats.filter (fun r => r.session_id == session_id)).map recToDoc

/-- The chat history the handler passes to `generate_response`: the user
turn is stored first (line 131), then the history queried (line 134), so
the query runs against the store already containing the current message. -/
def historyForPrompt (w : World) (session_id message : String) : List Doc :=
  loadHistory (store_chat w session_id "user" message).chats session_id

/-- Model of `send_contact_email`: wrapped in `try/except`, so a failed send is
absorbed; a successful send is recorded in `World.emails`. -/
def send_contact_email (ext : Svc) (w : World) (p : ContactPayload) : World :=
  if ext.emailOk p then { w with emails := w.emails ++ [p] } else w

/-- Model of `store_lead(contact_info)`: inserts the lead row (adding
`followed_up = False`) and then sends the email. The insert is NOT wrapped
in `try/except`, so a raising insert aborts (`none`) before the email. -/
def store_lead (ext : Svc) (w : World) (p : ContactPayload) : Option World :=
  if ext.leadInsertOk p then
    some (send_contact_email ext { w with leads := w.leads ++ [⟨p, false⟩] } p)
  else none

/-- Line 149's keyword test:
`any(keyword in message.lower() for keyword in ["name", "email", "phone"])`. -/
def keywordHit (message : String) : Bool :=
  pyIn "name" (lower message) || pyIn "email" (lower message) ||
  pyIn "phone" (lower message)

/-- The conjunctive lead gate of lines 143 and 149:
`CONTACT_PROMPT.lower() in response.lower()` and the keyword test. -/
def leadGuard (cfg : Config) (response message : String) : Bool :=
  pyIn (lower cfg.contactPrompt) (lower response) && keywordHit message

/-- Model of the per-line `if/elif/elif` chain of `extract_contact_info`: first marker in
priority order name, email, phone wins; the matched field receives the text
after the line's first colon, stripped. -/
def extractStep (info : ContactInfo) (line : String) : ContactInfo :=
  if pyIn "name:" (lower line) then
    { info with name := some (pyStrip (afterFirstColon line)) }
  else if pyIn "email:" (lower line) then
    { info with email := some (pyStrip (afterFirstColon line)) }
  else if pyIn "phone:" (lower line) then
    { info with phone := some (pyStrip (afterFirstColon line)) }
  else info

/-- Model of `extract_contact_info(message)`. -/
def extract_contact_info (message : String) : ContactInfo :=
  (splitLines message).foldl extractStep {}

/-- Lines 143-157: the lead detection/extraction tail of the handler, run
after the assistant turn is stored, with the generated `response` and the
request `message` in hand. -/
def leadPhase (cfg : Config) (ext : Svc) (w : World)
    (session_id message response : String) : World × HResult :=
  if leadGuard cfg response message then
    let contact_info := extract_contact_info message
    if contact_info.isEmpty then (w, .ok response)
    else
      let payload : ContactPayload := ⟨contact_info, session_id, "From chat"⟩
      match store_lead ext w payload with
      | none => (w, .serverError)
      | some w1 => (w1, .ok (response ++ THANK_YOU))
  else (w, .ok response)

/-- The `/api/chat` handler. Request fields default as in
`data.get('session_id', 'default_session')` and `data.get('message', '')`.
The two `store_chat` inserts are not wrapped in `try/except`: a raising
insert aborts the request with a 500 before anything later runs. -/
def chat (cfg : Config) (ext : Svc) (w : World)
    (sessionOpt messageOpt : Option String) : World × HResult :=
  let session_id := sessionOpt.getD "default_session"
  let message := messageOpt.getD ""
  let userRec : ChatRec := ⟨session_id, "user", message⟩
  if ext.chatInsertOk userRec then
    let w1 := store_chat w session_id "user" message
    let history := historyForPrompt w session_id message
    let response := generate_response ext.model cfg.maxChatHistory message history
    let asstRec : ChatRec := ⟨session_id, "assistant", response⟩
    if ext.chatInsertOk asstRec then
      let w2 := store_chat w1 session_id "assistant" response
      leadPhase cfg ext w2 session_id message response
    else (w1, .serverError)
  else (w, .serverError)

/-- A document carrying both keys the context loop reads; used to state
what the loop does when the `content` subscript would succeed. -/
def contentDoc (rc : String × String) : Doc := [("role", rc.1), ("content", rc.2)]

/-- Reference rendering of a full turn list into the context string. -/
def renderLoop (acc : String) : List (String × String) → String
  | [] => acc
  | rc :: rest => renderLoop (acc ++ rc.1 ++ ": " ++ rc.2 ++ "\n") rest

/-! ## Supporting lemmas about the string primitives -/

theorem listStartsWith_append (sub l l2 : List Char)
    (h : listStartsWith sub l = true) : listStartsWith sub (l ++ l2) = true := by
  induction sub generalizing l with
  | nil => simp [listStartsWith]
  | cons a as ih =>
    cases l with
    | nil => simp [listStartsWith] at h
    | cons b bs =>
      simp only [listStartsWith, Bool.and_eq_true] at h
      simp only [List.cons_append, listStartsWith, Bool.and_eq_true]
      exact ⟨h.1, ih bs h.2⟩

theorem listContains_nil (l : List Char) : listContains [] l = true := by
  cases l <;> simp [listContains, listStartsWith]

theorem listContains_append_left (sub l l2 : List Char)
    (h : listContains sub l = true) : listContains sub (l ++ l2) = true := by
  induction l with
  | nil =>
    cases sub with
    | nil => exact listContains_nil l2
    | cons a as => simp [listContains, listStartsWith] at h
  | cons b bs ih =>
    simp only [listContains, Bool.or_eq_true] at h
    simp only [List.cons_append, listContains, Bool.or_eq_true]
    rcases h with h | h
    · exact Or.inl (by simpa using listStartsWith_append sub (b :: bs) l2 h)
    · exact Or.inr (ih h)

theorem listContains_append_right (sub pre l : List Char)
    (h : listContains sub l = true) : listContains sub (pre ++ l) = true := by
  induction pre with
  | nil => simpa using h
  | cons p ps ih =>
    simp only [List.cons_append, listContains, Bool.or_eq_true]
    exact Or.inr ih

theorem splitOnChar_head (c : Char) (l : List Char) :
    ∃ b bs post, splitOnChar c l = b :: bs ∧ l = b ++ post := by
  induction l with
  | nil => exact ⟨[], [], [], rfl, rfl⟩
  | cons a as ih =>
    by_cases h : (a == c) = true
    · exact ⟨[], splitOnChar c as, a :: as, by simp [splitOnChar, h], rfl⟩
    · obtain ⟨b, bs, post, hsp, hdec⟩ := ih
      refine ⟨a :: b, bs, post, ?_, ?_⟩
      · simp [splitOnChar, h, hsp]
      · simp [hdec]

theorem splitOnChar_decomp (c : Char) (l : List Char) (p : List Char)
    (hp : p ∈ splitOnChar c l) : ∃ pre post, l = pre ++ p ++ post := by
  induction l generalizing p with
  | nil =>
    simp [splitOnChar] at hp
    exact ⟨[], [], by simp [hp]⟩
  | cons a as ih =>
    by_cases h : (a == c) = true
    · simp only [splitOnChar, h, if_true, List.mem_cons] at hp
      rcases hp with hp | hp
      · exact ⟨[], a :: as, by simp [hp]⟩
      · obtain ⟨pre, post, hd⟩ := ih p hp
        exact ⟨a :: pre, post, by simp [hd]⟩
    · obtain ⟨b, bs, post0, hsp, hdec⟩ := splitOnChar_head c as
      have hred : splitOnChar c (a :: as) = (a :: b) :: bs := by
        simp [splitOnChar, h, hsp]
      rw [hred] at hp
      rcases List.mem_cons.mp hp with hp | hp
      · subst hp
        exact ⟨[], post0, by simp [hdec]⟩
      · have hp' : p ∈ splitOnChar c as := by
          rw [hsp]; exact List.mem_cons_of_mem _ hp
        obtain ⟨pre, post, hd⟩ := ih p hp'
        exact ⟨a :: pre, post, by simp [hd]⟩

theorem pyIn_of_mem_line (sub m : String) (p : List Char)
    (hp : p ∈ splitOnChar '\n' m.data)
    (h : listContains sub.data (p.map Char.toLower) = true) :
    pyIn sub (lower m) = true := by
  obtain ⟨pre, post, hd⟩ := splitOnChar_decomp '\n' m.data p hp
  show listContains sub.data ((lower m).data) = true
  have hdata : (lower m).data = pre.map Char.toLower ++
      (p.map Char.toLower ++ post.map Char.toLower) := by
    show (m.data.map Char.toLower) = _
    rw [hd]
    simp [List.map_append]
  rw [hdata]
  exact listContains_append_right _ _ _ (listContains_append_left _ _ _ h)

theorem foldl_fix {α β : Type} (f : α → β → α) (xs : List β) (a : α)
    (h : ∀ x ∈ xs, ∀ b, f b x = b) : xs.foldl f a = a := by
  induction xs generalizing a with
  | nil => rfl
  | cons x xs ih =>
    simp only [List.foldl]
    rw [h x (by simp)]
    exact ih a (fun y hy b => h y (by simp [hy]) b)

/-! ## Supporting lemmas about the embedded program -/

theorem docGet_recToDoc_content (r : ChatRec) :
    docGet (recToDoc r) "content" = none := rfl

theorem docGet_contentDoc_role (rc : String × String) :
    docGet (contentDoc rc) "role" = some rc.1 := rfl

theorem docGet_contentDoc_content (rc : String × String) :
    docGet (contentDoc rc) "content" = some rc.2 := rfl

theorem contextLoop_keyError (acc : String) (d : Doc) (ds : List Doc)
    (h : docGet d "content" = none) : contextLoop acc (d :: ds) = none := by
  rcases hr : docGet d "role" with _ | r <;> simp [contextLoop, h, hr]

theorem contextLoop_contentDoc (turns : List (String × String)) :
    ∀ acc, contextLoop acc (turns.map contentDoc) = some (renderLoop acc turns) := by
  induction turns with
  | nil => intro acc; rfl
  | cons rc rest ih =>
    intro acc
    simp only [List.map_cons, contextLoop, docGet_contentDoc_role,
      docGet_contentDoc_content, renderLoop]
    exact ih _

theorem pyTailSlice_map {α β : Type} (f : α → β) (k : Nat) (xs : List α) :
    pyTailSlice k (xs.map f) = (pyTailSlice k xs).map f := by
  unfold pyTailSlice
  split
  · rfl
  · rw [List.length_map]
    exact (List.map_drop f xs (xs.length - k)).symm

theorem pyTailSlice_ne_nil {α : Type} (k : Nat) (xs : List α) (h : xs ≠ []) :
    pyTailSlice k xs ≠ [] := by
  have hl : 0 < xs.length := List.length_pos.mpr h
  unfold pyTailSlice
  split
  · exact h
  · next hk =>
    intro hc
    have h2 := congrArg List.length hc
    rw [List.length_drop, List.length_nil] at h2
    omega

theorem generate_response_loaded_fallback (mdl : String → Option String) (k : Nat)
    (prompt : String) (recs : List ChatRec) (h : recs ≠ []) :
    generate_response mdl k prompt (recs.map recToDoc) = FALLBACK := by
  unfold generate_response buildContext
  rw [pyTailSlice_map]
  rcases hx : pyTailSlice k recs with _ | ⟨r, rest⟩
  · exact absurd hx (pyTailSlice_ne_nil k recs h)
  · simp only [List.map_cons]
    rw [contextLoop_keyError _ _ _ (docGet_recToDoc_content r)]

theorem extractStep_id (info : ContactInfo) (line : String)
    (h1 : pyIn "name:" (lower line) = false)
    (h2 : pyIn "email:" (lower line) = false)
    (h3 : pyIn "phone:" (lower line) = false) :
    extractStep info line = info := by
  simp [extractStep, h1, h2, h3]

theorem extract_contact_info_empty (m : String)
    (h1 : pyIn "name:" (lower m) = false)
    (h2 : pyIn "email:" (lower m) = false)
    (h3 : pyIn "phone:" (lower m) = false) :
    extract_contact_info m = {} := by
  unfold extract_contact_info
  apply foldl_fix
  intro line hline info
  rcases List.mem_map.mp hline with ⟨p, hp, rfl⟩
  have key : ∀ sub : String, pyIn sub (lower m) = false →
      pyIn sub (lower (String.mk p)) = false := by
    intro sub hm
    cases hb : pyIn sub (lower (String.mk p)) with
    | false => rfl
    | true =>
      have hc : pyIn sub (lower m) = true := pyIn_of_mem_line sub m p hp hb
      rw [hm] at hc
      exact absurd hc (by simp)
  exact extractStep_id info (String.mk p) (key _ h1) (key _ h2) (key _ h3)

theorem leadPhase_trigger_absent (cfg : Config) (ext : Svc) (w : World)
    (sid m r : String) (h : pyIn (lower cfg.contactPrompt) (lower r) = false) :
    leadPhase cfg ext w sid m r = (w, HResult.ok r) := by
  simp [leadPhase, leadGuard, h]

theorem leadPhase_email_indep (cfg : Config) (mdl : String → Option String)
    (cio : ChatRec → Bool) (lio : ContactPayload → Bool)
    (e1 e2 : ContactPayload → Bool) (w : World) (sid m r : String) :
    (leadPhase cfg ⟨mdl, cio, lio, e1⟩ w sid m r).1.chats
      = (leadPhase cfg ⟨mdl, cio, lio, e2⟩ w sid m r).1.chats ∧
    (leadPhase cfg ⟨mdl, cio, lio, e1⟩ w sid m r).1.leads
      = (leadPhase cfg ⟨mdl, cio, lio, e2⟩ w sid m r).1.leads ∧
    (leadPhase cfg ⟨mdl, cio, lio, e1⟩ w sid m r).2
      = (leadPhase cfg ⟨mdl, cio, lio, e2⟩ w sid m r).2 := by
  unfold leadPhase store_lead send_contact_email
  dsimp only
  split
  · rcases hne : (extract_contact_info m).isEmpty with _ | _
    · simp only [hne, Bool.false_eq_true, if_false]
      rcases hl : lio ⟨extract_contact_info m, sid, "From chat"⟩ with _ | _
      · simp [hl]
      · simp only [hl, if_true]
        cases e1 ⟨extract_contact_info m, sid, "From chat"⟩ <;>
          cases e2 ⟨extract_contact_info m, sid, "From chat"⟩ <;> simp
    · simp [hne]
  · simp

theorem leadPhase_never_error (cfg : Config) (ext : Svc) (w : World)
    (sid m r : String)
    (hl : ext.leadInsertOk ⟨extract_contact_info m, sid, "From chat"⟩ = true) :
    (leadPhase cfg ext w sid m r).2 ≠ HResult.serverError := by
  unfold leadPhase store_lead send_contact_email
  dsimp only
  split
  · rcases hne : (extract_contact_info m).isEmpty with _ | _
    · simp only [hne, Bool.false_eq_true, if_false, hl, if_true]
      cases ext.emailOk ⟨extract_contact_info m, sid, "From chat"⟩ <;> simp
    · simp [hne]
  · simp

/-! ## Claim theorems -/

/-- C1: for every request whose loaded chat history is non-empty,
`generate_response` returns the fixed fallback string regardless of the
model oracle: loaded documents carry the keys `role` and `message` (the
query projection), but the context loop subscripts `msg['content']`, so
the `KeyError` hits the catch-all handler before the model is called. -/
theorem C1_nonempty_history_forces_fallback (mdl : String → Option String)
    (k : Nat) (prompt : String) (chats : List ChatRec) (sid : String)
    (h : loadHistory chats sid ≠ []) :
    generate_response mdl k prompt (loadHistory chats sid) = FALLBACK := by
  unfold loadHistory at h ⊢
  apply generate_response_loaded_fallback
  intro hc
  rw [hc] at h
  exact h rfl

/-- Witness for C1 at a concrete one-turn history, with a model oracle that
would succeed (echo): the fallback is returned anyway. -/
theorem C1_witness :
    loadHistory [⟨"s1", "user", "Hi"⟩] "s1" ≠ [] ∧
    generate_response (fun p => some p) 5 "x"
      (loadHistory [⟨"s1", "user", "Hi"⟩] "s1") = FALLBACK :=
  ⟨by decide,
   C1_nonempty_history_forces_fallback (fun p => some p) 5 "x"
     [⟨"s1", "user", "Hi"⟩] "s1" (by decide)⟩

/-- C2, counterexample: a history-store write failure is NOT caught — the
request aborts with a server error and no reply is returned (first
conjunct); likewise a lead-store write failure aborts the request even
though the reply had been generated (second conjunct). This refutes the
claim that such failures are caught and the reply still returned. -/
theorem C2_counterexample :
    chat ⟨5, "share"⟩ ⟨fun _ => none, fun _ => false, fun _ => true, fun _ => true⟩
      ⟨[], [], []⟩ (some "s1") (some "hi") = (⟨[], [], []⟩, HResult.serverError) ∧
    chat ⟨5, ""⟩ ⟨fun _ => none, fun _ => true, fun _ => false, fun _ => true⟩
      ⟨[], [], []⟩ (some "s1") (some "name: Bob")
      = (⟨[⟨"s1", "user", "name: Bob"⟩, ⟨"s1", "assistant", FALLBACK⟩], [], []⟩,
         HResult.serverError) := ⟨by decide, by decide⟩

/-- C2, amended: a history-store write failure is not caught and aborts the
request with no reply (first conjunct); the notification (email) outcome
never influences the stored chats, the stored leads, or the returned
result — no rollback, no blocking (second conjunct); and an email failure
alone never aborts the request when the store writes succeed (third
conjunct). -/
theorem C2_amended_failure_semantics :
    (∀ (cfg : Config) (ext : Svc) (w : World) (so mo : Option String),
      ext.chatInsertOk ⟨so.getD "default_session", "user", mo.getD ""⟩ = false →
      chat cfg ext w so mo = (w, HResult.serverError)) ∧
    (∀ (cfg : Config) (mdl : String → Option String) (cio : ChatRec → Bool)
        (lio : ContactPayload → Bool) (e1 e2 : ContactPayload → Bool)
        (w : World) (so mo : Option String),
      (chat cfg ⟨mdl, cio, lio, e1⟩ w so mo).1.chats
        = (chat cfg ⟨mdl, cio, lio, e2⟩ w so mo).1.chats ∧
      (chat cfg ⟨mdl, cio, lio, e1⟩ w so mo).1.leads
        = (chat cfg ⟨mdl, cio, lio, e2⟩ w so mo).1.leads ∧
      (chat cfg ⟨mdl, cio, lio, e1⟩ w so mo).2
        = (chat cfg ⟨mdl, cio, lio, e2⟩ w so mo).2) ∧
    (∀ (cfg : Config) (mdl : String → Option String) (eml : ContactPayload → Bool)
        (w : World) (so mo : Option String),
      (chat cfg ⟨mdl, fun _ => true, fun _ => true, eml⟩ w so mo).2
        ≠ HResult.serverError) := by
  refine ⟨?_, ?_, ?_⟩
  · intro cfg ext w so mo h
    unfold chat
    dsimp only
    rw [h]
    rfl
  · intro cfg mdl cio lio e1 e2 w so mo
    refine ⟨?_, ?_, ?_⟩ <;>
    · unfold chat
      dsimp only
      split
      · split
        · first
          | exact (leadPhase_email_indep cfg mdl cio lio e1 e2 _ _ _ _).1
          | exact (leadPhase_email_indep cfg mdl cio lio e1 e2 _ _ _ _).2.1
          | exact (leadPhase_email_indep cfg mdl cio lio e1 e2 _ _ _ _).2.2
        · rfl
      · rfl
  · intro cfg mdl eml w so mo
    exact leadPhase_never_error cfg ⟨mdl, fun _ => true, fun _ => true, eml⟩ _ _ _ _ rfl

/-- Witness for the amended C2 at a concrete failing user-store insert. -/
theorem C2_amended_witness :
    (⟨fun _ => none, fun _ => false, fun _ => true, fun _ => true⟩ : Svc).chatInsertOk
      ⟨"s1", "user", "hi"⟩ = false ∧
    chat ⟨5, "x"⟩ ⟨fun _ => none, fun _ => false, fun _ => true, fun _ => true⟩
      ⟨[], [], []⟩ (some "s1") (some "hi") = (⟨[], [], []⟩, HResult.serverError) :=
  ⟨rfl, C2_amended_failure_semantics.1 ⟨5, "x"⟩
    ⟨fun _ => none, fun _ => false, fun _ => true, fun _ => true⟩
    ⟨[], [], []⟩ (some "s1") (some "hi") rfl⟩

set_option maxRecDepth 40000 in
/-- C3, counterexample: with `max_history = 0` and a one-turn history whose
document would satisfy the loop (both keys present), the prompt handed to
the model DOES contain the history line `user: hi` — because the Python
slice `[-0:]` selects the whole list — contradicting the claim that the
prompt has no history lines for every input history. -/
theorem C3_counterexample :
    generate_response (fun p => some p) 0 "q" [contentDoc ("user", "hi")]
      = CONTEXT_HEADER ++ "user: hi\n" ++ "\nUser: q\nAssistant:" ∧
    pyIn "user: hi" (CONTEXT_HEADER ++ "user: hi\n" ++ "\nUser: q\nAssistant:") = true ∧
    generate_response (fun p => some p) 0 "q" [contentDoc ("user", "hi")]
      ≠ CONTEXT_HEADER ++ "\nUser: q\nAssistant:" := by
  refine ⟨by decide, by decide, by decide⟩

/-- C3, amended: when `max_history` is 0 the slice `[-0:]` keeps the whole
history, so the built context contains ALL history lines of the input (the
claim as stated holds only for an empty history). -/
theorem C3_amended_all_history_included (turns : List (String × String)) :
    buildContext 0 (turns.map contentDoc) = some (renderLoop CONTEXT_HEADER turns) := by
  unfold buildContext pyTailSlice
  rw [if_pos rfl]
  exact contextLoop_contentDoc turns CONTEXT_HEADER

/-- C4, counterexample: for the first message of an unknown session the
history used to build the prompt is NOT empty — the handler stores the
user turn (line 131) before querying (line 134), so the loaded history is
the one-element sequence holding the current message. -/
theorem C4_counterexample :
    historyForPrompt ⟨[], [], []⟩ "s1" "Hi" = [[("role", "user"), ("message", "Hi")]] ∧
    historyForPrompt ⟨[], [], []⟩ "s1" "Hi" ≠ [] := ⟨by decide, by decide⟩

/-- C4, amended: for a session with no stored turns (unknown session — not
an error), the history used to build the prompt context is exactly the
one-element sequence containing the just-stored current user message. -/
theorem C4_amended_first_message_history (w : World) (sid msg : String)
    (h : w.chats.filter (fun r => r.session_id == sid) = []) :
    historyForPrompt w sid msg = [recToDoc ⟨sid, "user", msg⟩] := by
  unfold historyForPrompt loadHistory store_chat
  simp only [List.filter_append, h, List.nil_append]
  simp [List.filter]

/-- Witness for the amended C4 at a concrete empty store. -/
theorem C4_witness :
    ((⟨[], [], []⟩ : World).chats.filter (fun r => r.session_id == "s1") = []) ∧
    historyForPrompt ⟨[], [], []⟩ "s1" "Hi" = [recToDoc ⟨"s1", "user", "Hi"⟩] :=
  ⟨by decide, C4_amended_first_message_history ⟨[], [], []⟩ "s1" "Hi" (by decide)⟩

/-- C5: lead extraction is gated by the conjunction of the two checks. If
the trigger phrase is not a case-insensitive substring of the reply, the
lead phase is a no-op for every message (first conjunct); likewise if no
keyword occurs in the message (second conjunct); and when both hold and
extraction is non-empty, the extraction result is acted upon — the lead
built from `extract_contact_info` is persisted (third conjunct). -/
theorem C5_lead_gate (cfg : Config) (ext : Svc) (w : World) (sid m r : String) :
    (pyIn (lower cfg.contactPrompt) (lower r) = false →
      leadPhase cfg ext w sid m r = (w, HResult.ok r)) ∧
    (keywordHit m = false →
      leadPhase cfg ext w sid m r = (w, HResult.ok r)) ∧
    (pyIn (lower cfg.contactPrompt) (lower r) = true → keywordHit m = true →
      (extract_contact_info m).isEmpty = false →
      ext.leadInsertOk ⟨extract_contact_info m, sid, "From chat"⟩ = true →
      (leadPhase cfg ext w sid m r).1.leads
        = w.leads ++ [⟨⟨extract_contact_info m, sid, "From chat"⟩, false⟩]) := by
  refine ⟨fun h => leadPhase_trigger_absent cfg ext w sid m r h, ?_, ?_⟩
  · intro h
    simp [leadPhase, leadGuard, h]
  · intro h1 h2 h3 h4
    simp only [leadPhase, leadGuard, h1, h2, Bool.and_self, if_true, h3,
      Bool.false_eq_true, if_false, store_lead, h4, send_contact_email]
    cases he : ext.emailOk ⟨extract_contact_info m, sid, "From chat"⟩ <;> simp [he]

/-- Witness for C5: trigger phrase absent from the reply, message full of
markers and keywords — still a no-op. -/
theorem C5_witness :
    pyIn (lower "share your contact") (lower "hello") = false ∧
    leadPhase ⟨5, "share your contact"⟩
      ⟨fun _ => none, fun _ => true, fun _ => true, fun _ => true⟩
      ⟨[], [], []⟩ "s1" "name: Bob" "hello" = (⟨[], [], []⟩, HResult.ok "hello") :=
  ⟨by decide,
   (C5_lead_gate ⟨5, "share your contact"⟩
     ⟨fun _ => none, fun _ => true, fun _ => true, fun _ => true⟩
     ⟨[], [], []⟩ "s1" "name: Bob" "hello").1 (by decide)⟩

/-- C6: the extractor on the specification example yields name `Jane Doe`
and email `jane@x.com` with no phone key (first conjunct); per line the
markers are tested in the priority order name, email, phone — a line whose
lowering contains `name:` assigns only the name field, the text after the
first colon, stripped (second conjunct), and analogously for email and
phone when the higher-priority markers are absent (remaining conjuncts). -/
theorem C6_extractor :
    extract_contact_info "My name: Jane Doe\nemail: jane@x.com"
      = { name := some "Jane Doe", email := some "jane@x.com", phone := none } ∧
    (∀ (info : ContactInfo) (line : String), pyIn "name:" (lower line) = true →
      extractStep info line
        = { info with name := some (pyStrip (afterFirstColon line)) }) ∧
    (∀ (info : ContactInfo) (line : String), pyIn "name:" (lower line) = false →
      pyIn "email:" (lower line) = true →
      extractStep info line
        = { info with email := some (pyStrip (afterFirstColon line)) }) ∧
    (∀ (info : ContactInfo) (line : String), pyIn "name:" (lower line) = false →
      pyIn "email:" (lower line) = false → pyIn "phone:" (lower line) = true →
      extractStep info line
        = { info with phone := some (pyStrip (afterFirstColon line)) }) := by
  refine ⟨by decide, ?_, ?_, ?_⟩ <;> intros <;> simp [extractStep, *]

/-- Witness for C6: a line containing both `name:` and `phone:` markers
assigns only the name (first match wins), keeping everything after the
line's first colon. -/
theorem C6_witness :
    pyIn "name:" (lower "Name: Bob phone: 123") = true ∧
    extractStep {} "Name: Bob phone: 123"
      = { name := some "Bob phone: 123", email := none, phone := none } :=
  ⟨by decide, C6_extractor.2.1 {} "Name: Bob phone: 123" (by decide)⟩

/-- C7: a message whose lowering contains none of the three markers yields
the empty extraction result, and then the lead phase persists nothing,
notifies nothing, and returns the reply unchanged — for every
configuration, so in particular even when the trigger phrase was present
in the reply and the keyword check passed. -/
theorem C7_no_markers_no_lead (m : String)
    (h1 : pyIn "name:" (lower m) = false)
    (h2 : pyIn "email:" (lower m) = false)
    (h3 : pyIn "phone:" (lower m) = false) :
    extract_contact_info m = {} ∧
    ∀ (cfg : Config) (ext : Svc) (w : World) (sid r : String),
      leadPhase cfg ext w sid m r = (w, HResult.ok r) := by
  have hempty := extract_contact_info_empty m h1 h2 h3
  refine ⟨hempty, ?_⟩
  intro cfg ext w sid r
  unfold leadPhase
  split
  · rw [hempty]
    rfl
  · rfl

/-- Witness for C7: a marker-free message that does pass the keyword check,
with an empty trigger phrase (always contained in the reply), still
produces no lead and no suffix. -/
theorem C7_witness :
    pyIn "name:" (lower "what is your email") = false ∧
    pyIn "email:" (lower "what is your email") = false ∧
    pyIn "phone:" (lower "what is your email") = false ∧
    leadGuard ⟨5, ""⟩ "any reply" "what is your email" = true ∧
    extract_contact_info "what is your email" = {} ∧
    leadPhase ⟨5, ""⟩ ⟨fun _ => none, fun _ => true, fun _ => true, fun _ => true⟩
      ⟨[], [], []⟩ "s1" "what is your email" "any reply"
      = (⟨[], [], []⟩, HResult.ok "any reply") :=
  ⟨by decide, by decide, by decide, by decide,
   (C7_no_markers_no_lead "what is your email" (by decide) (by decide) (by decide)).1,
   (C7_no_markers_no_lead "what is your email" (by decide) (by decide) (by decide)).2
     ⟨5, ""⟩ ⟨fun _ => none, fun _ => true, fun _ => true, fun _ => true⟩
     ⟨[], [], []⟩ "s1" "any reply"⟩

/-- C8: when the lead gate passes and extraction is non-empty (and the
external writes succeed), the handler appends exactly one lead row carrying
the request session id, the interest label `From chat`, `followed_up =
false` and the extracted fields; the same payload is handed to the
notification sink; and the returned response is the generated reply with
the fixed thank-you suffix appended. -/
theorem C8_lead_record (cfg : Config) (mdl : String → Option String) (w : World)
    (sid m : String)
    (hg : leadGuard cfg
      (generate_response mdl cfg.maxChatHistory m (historyForPrompt w sid m)) m = true)
    (hne : (extract_contact_info m).isEmpty = false) :
    (chat cfg ⟨mdl, fun _ => true, fun _ => true, fun _ => true⟩ w
        (some sid) (some m)).1.leads
      = w.leads ++ [⟨⟨extract_contact_info m, sid, "From chat"⟩, false⟩] ∧
    (chat cfg ⟨mdl, fun _ => true, fun _ => true, fun _ => true⟩ w
        (some sid) (some m)).1.emails
      = w.emails ++ [⟨extract_contact_info m, sid, "From chat"⟩] ∧
    (chat cfg ⟨mdl, fun _ => true, fun _ => true, fun _ => true⟩ w
        (some sid) (some m)).2
      = HResult.ok
          (generate_response mdl cfg.maxChatHistory m (historyForPrompt w sid m)
            ++ THANK_YOU) := by
  unfold chat leadPhase
  simp only [Option.getD_some, if_true]
  rw [hg]
  simp only [if_true, hne, Bool.false_eq_true, if_false, store_lead,
    send_contact_email, store_chat]
  simp

/-- Witness for C8: empty trigger phrase (contained in any reply), message
`name: Bob` and `email: bob@x.com` — the persisted and notified lead and
the suffixed response, concretely. -/
theorem C8_witness :
    leadGuard ⟨5, ""⟩
      (generate_response (fun _ => none) 5 "name: Bob\nemail: bob@x.com"
        (historyForPrompt ⟨[], [], []⟩ "s1" "name: Bob\nemail: bob@x.com"))
      "name: Bob\nemail: bob@x.com" = true ∧
    (extract_contact_info "name: Bob\nemail: bob@x.com").isEmpty = false ∧
    (chat ⟨5, ""⟩ ⟨fun _ => none, fun _ => true, fun _ => true, fun _ => true⟩
        ⟨[], [], []⟩ (some "s1") (some "name: Bob\nemail: bob@x.com")).1.leads
      = [⟨⟨⟨some "Bob", some "bob@x.com", none⟩, "s1", "From chat"⟩, false⟩] ∧
    (chat ⟨5, ""⟩ ⟨fun _ => none, fun _ => true, fun _ => true, fun _ => true⟩
        ⟨[], [], []⟩ (some "s1") (some "name: Bob\nemail: bob@x.com")).1.emails
      = [⟨⟨some "Bob", some "bob@x.com", none⟩, "s1", "From chat"⟩] ∧
    (chat ⟨5, ""⟩ ⟨fun _ => none, fun _ => true, fun _ => true, fun _ => true⟩
        ⟨[], [], []⟩ (some "s1") (some "name: Bob\nemail: bob@x.com")).2
      = HResult.ok (FALLBACK ++ THANK_YOU) := by
  have h := C8_lead_record ⟨5, ""⟩ (fun _ => none) ⟨[], [], []⟩ "s1"
    "name: Bob\nemail: bob@x.com" (by decide) (by decide)
  exact ⟨by decide, by decide, h.1, h.2.1, h.2.2⟩

/-- C9: if the model call fails on every prompt, `generate_response`
returns exactly the fixed fallback string — the failure never escapes. -/
theorem C9_model_failure_fallback (mdl : String → Option String) (k : Nat)
    (prompt : String) (history : List Doc) (h : ∀ p, mdl p = none) :
    generate_response mdl k prompt history = FALLBACK := by
  unfold generate_response
  rcases hb : buildContext k history with _ | ctx
  · rfl
  · show (match mdl (ctx ++ "\nUser: " ++ prompt ++ "\nAssistant:") with
      | none => FALLBACK
      | some text => text) = FALLBACK
    rw [h]

/-- Witness for C9 at a concrete failing model and a history whose
documents let the context loop succeed, so the model call is reached. -/
theorem C9_witness :
    generate_response (fun _ => none) 3 "hello" [contentDoc ("user", "hi")] = FALLBACK :=
  C9_model_failure_fallback (fun _ => none) 3 "hello" [contentDoc ("user", "hi")]
    (fun _ => rfl)

set_option maxRecDepth 40000 in
/-- C10, counterexample: with the cap `max_history = 0` and a history of
two turns — strictly longer than the cap — the built context contains both
turns rather than the last zero turns: the Python slice `[-0:]` is the
whole list. -/
theorem C10_counterexample :
    buildContext 0 [contentDoc ("a", "x"), contentDoc ("b", "y")]
      = some (CONTEXT_HEADER ++ "a: x\n" ++ "b: y\n") ∧
    CONTEXT_HEADER ++ "a: x\n" ++ "b: y\n" ≠ CONTEXT_HEADER := ⟨by decide, by decide⟩

/-- C10, amended: for every cap `max_history ≥ 1` the built context renders
exactly the turns `drop (length - max_history)` — the trailing
`max_history` turns in original order when the history is longer, of
length `min max_history length` (never more), and all turns when the
history is not longer. The `max_history = 0` case is excluded: there the
slice keeps everything. -/
theorem C10_amended_tail_slice (k : Nat) (hk : 1 ≤ k) (turns : List (String × String)) :
    buildContext k (turns.map contentDoc)
      = some (renderLoop CONTEXT_HEADER (turns.drop (turns.length - k))) ∧
    (turns.drop (turns.length - k)).length = min k turns.length ∧
    (turns.length ≤ k → turns.drop (turns.length - k) = turns) := by
  refine ⟨?_, ?_, ?_⟩
  · unfold buildContext
    rw [pyTailSlice_map]
    unfold pyTailSlice
    rw [if_neg (by omega)]
    exact contextLoop_contentDoc _ _
  · rw [List.length_drop]
    omega
  · intro hle
    have h0 : turns.length - k = 0 := by omega
    rw [h0, List.drop_zero]

/-- Witness for the amended C10: cap 2 over a three-turn history keeps
exactly the last two turns. -/
theorem C10_witness :
    1 ≤ 2 ∧
    buildContext 2 ([("a", "x"), ("b", "y"), ("c", "z")].map contentDoc)
      = some (renderLoop CONTEXT_HEADER [("b", "y"), ("c", "z")]) :=
  ⟨by decide,
   (C10_amended_tail_slice 2 (by decide) [("a", "x"), ("b", "y"), ("c", "z")]).1⟩
